import Mathlib

/-!
Verification of the FLUX.1 Schnell manifold function
(`flux_schnell_manifold_function.py`).

The Python adapter is shallowly embedded: Python `str` becomes `String`,
`bytes` becomes `List Nat` (each byte `< 256`), Python exceptions become
`Except PyErr`, and the two outbound HTTP effects (`requests.post` inside
`non_stream_response`, `requests.get` inside `url_to_img_data`) become
oracle parameters.  `eval` of the operator-supplied `BEFORE_INPUT_STRING`
and the external `get_last_user_message` collaborator are likewise oracle
parameters, since their behaviour is not code of this repository.
-/

/-- A Python exception crossing a boundary: either a
`requests.exceptions.RequestException` (or subclass such as `HTTPError`),
or any other `Exception`; the payload is `str(e)`. -/
inductive PyErr where
  | request (msg : String)
  | other (msg : String)
deriving DecidableEq

/-- A JSON value, the result of `response.json()` and the shape of request
payloads built by `Pipe.pipe`. -/
inductive JVal where
  | null
  | bool (b : Bool)
  | num (n : Int)
  | str (s : String)
  | arr (xs : List JVal)
  | obj (fields : List (String × JVal))

/-- An HTTP response as the adapter observes it: status code, the
`Content-Type` header (if present), the result of calling `.json()`
(which may itself raise), and the raw body bytes. -/
structure HttpResponse where
  status : Nat
  contentTypeHeader : Option String
  jsonVal : Except PyErr JVal
  content : List Nat

/-- The `Pipe.Valves` configuration model. -/
structure Valves where
  FLUX_SCHNELL_API_KEY : String
  FLUX_SCHNELL_API_BASE_URL : String
  BEFORE_INPUT_STRING : String

/-- The conversation payload dict, restricted to the two entries the
adapter touches: `body["stream"]` (absent, or a boolean) and
`body["messages"]` (absent — which makes `body["messages"]` raise
`KeyError` — or an opaque message sequence of type `M`). -/
structure Body (M : Type) where
  streamEntry : Option Bool
  messages : Option M

/-- What `Pipe.pipe` hands back on a normal return: a plain string or a
generator (modelled as the list of the strings it yields). -/
inductive PipeRet where
  | str (s : String)
  | gen (xs : List String)

/-- `true` exactly on the plain-string constructor of `PipeRet`. -/
def PipeRet.isStr : PipeRet → Bool
  | .str _ => true
  | .gen _ => false

/-- `true` exactly when a returned `pipe` value is a generator. -/
def isGenRet : Except PyErr PipeRet → Bool
  | .ok (.gen _) => true
  | _ => false

/-! ### Base64 (Python `base64.b64encode` on bytes, and its inverse) -/

/-- The character of the standard base64 alphabet at index `n < 64`. -/
def sixbitChar (n : Nat) : Char :=
  if n < 26 then Char.ofNat (65 + n)
  else if n < 52 then Char.ofNat (97 + (n - 26))
  else if n < 62 then Char.ofNat (48 + (n - 52))
  else if n = 62 then '+' else '/'

/-- Index of a standard base64 alphabet character. -/
def charSixbit (c : Char) : Nat :=
  if 65 ≤ c.toNat ∧ c.toNat ≤ 90 then c.toNat - 65
  else if 97 ≤ c.toNat ∧ c.toNat ≤ 122 then c.toNat - 97 + 26
  else if 48 ≤ c.toNat ∧ c.toNat ≤ 57 then c.toNat - 48 + 52
  else if c = '+' then 62 else 63

/-- `base64.b64encode` on a byte list, producing the character list of the
ASCII result (with `=` padding). -/
def b64encodeBytes : List Nat → List Char
  | [] => []
  | [a] => [sixbitChar (a / 4), sixbitChar (a % 4 * 16), '=', '=']
  | [a, b] =>
      [sixbitChar (a / 4), sixbitChar (a % 4 * 16 + b / 16),
       sixbitChar (b % 16 * 4), '=']
  | a :: b :: c :: rest =>
      sixbitChar (a / 4) :: sixbitChar (a % 4 * 16 + b / 16)
        :: sixbitChar (b % 16 * 4 + c / 64) :: sixbitChar (c % 64)
        :: b64encodeBytes rest

/-- Base64 decoding of a padded character list; inverse of
`b64encodeBytes` on its image. -/
def b64decodeChars : List Char → List Nat
  | w :: x :: y :: z :: rest =>
      if y = '=' then [charSixbit w * 4 + charSixbit x / 16]
      else if z = '=' then
        [charSixbit w * 4 + charSixbit x / 16,
         charSixbit x % 16 * 16 + charSixbit y / 4]
      else
        (charSixbit w * 4 + charSixbit x / 16)
          :: (charSixbit x % 16 * 16 + charSixbit y / 4)
          :: (charSixbit y % 4 * 64 + charSixbit z)
          :: b64decodeChars rest
  | _ => []

theorem charSixbit_sixbitChar : ∀ n : Nat, n < 64 → charSixbit (sixbitChar n) = n := by
  decide

theorem sixbitChar_ne_pad : ∀ n : Nat, n < 64 → sixbitChar n ≠ '=' := by
  decide

theorem sixbitChar_ne_semi : ∀ n : Nat, n < 64 → sixbitChar n ≠ ';' := by
  decide

/-- Decoding inverts encoding on genuine byte lists. -/
theorem b64_roundtrip (bs : List Nat) (h : ∀ b ∈ bs, b < 256) :
    b64decodeChars (b64encodeBytes bs) = bs := by
  induction bs using b64encodeBytes.induct with
  | case1 => rfl
  | case2 a =>
      have ha : a < 256 := h a (by simp)
      simp only [b64encodeBytes, b64decodeChars]
      first
      | rw [if_pos rfl]
      | rw [if_pos trivial]
      rw [charSixbit_sixbitChar _ (by omega), charSixbit_sixbitChar _ (by omega)]
      simp only [List.cons.injEq, eq_self_iff_true, and_true]
      omega
  | case3 a b =>
      have ha : a < 256 := h a (by simp)
      have hb : b < 256 := h b (by simp)
      simp only [b64encodeBytes, b64decodeChars]
      rw [if_neg (sixbitChar_ne_pad _ (by omega))]
      first
      | rw [if_pos rfl]
      | rw [if_pos trivial]
      rw [charSixbit_sixbitChar _ (by omega), charSixbit_sixbitChar _ (by omega),
        charSixbit_sixbitChar _ (by omega)]
      simp only [List.cons.injEq, eq_self_iff_true, and_true]
      omega
  | case4 a b c rest ih =>
      have ha : a < 256 := h a (by simp)
      have hb : b < 256 := h b (by simp)
      have hc : c < 256 := h c (by simp)
      simp only [b64encodeBytes, b64decodeChars]
      rw [if_neg (sixbitChar_ne_pad _ (by omega)), if_neg (sixbitChar_ne_pad _ (by omega))]
      rw [charSixbit_sixbitChar _ (by omega), charSixbit_sixbitChar _ (by omega),
        charSixbit_sixbitChar _ (by omega), charSixbit_sixbitChar _ (by omega)]
      have hrest := ih (fun x hx => h x (by simp [hx]))
      rw [hrest]
      simp only [List.cons.injEq, eq_self_iff_true, and_true]
      omega

/-! ### Python string operations -/

/-- Python `needle in hay` on strings (substring containment). -/
def pyIn (needle hay : String) : Bool :=
  decide (needle.toList <:+: hay.toList)

/-- Python `s.startswith(pre)`. -/
def pyStartswith (s pre : String) : Bool :=
  pre.toList.isPrefixOf s.toList

/-- Python `s[:n]`. -/
def strTake (s : String) (n : Nat) : String :=
  String.mk (s.toList.take n)

/-- First occurrence of `sep` in `s`: `some (pre, post)` with `s`
decomposing as `pre ++ sep ++ post` at the leftmost occurrence, `none`
when `sep` does not occur. -/
def findSep (sep : List Char) : List Char → Option (List Char × List Char)
  | [] => none
  | c :: rest =>
      if sep.isPrefixOf (c :: rest) then some ([], (c :: rest).drop sep.length)
      else
        match findSep sep rest with
        | some (pre, post) => some (c :: pre, post)
        | none => none

theorem findSep_decomp (sep : List Char) (s pre post : List Char)
    (h : findSep sep s = some (pre, post)) : s = pre ++ sep ++ post := by
  induction s generalizing pre post with
  | nil => simp [findSep] at h
  | cons c rest ih =>
      rw [findSep] at h
      by_cases hp : sep.isPrefixOf (c :: rest)
      · rw [if_pos hp] at h
        simp only [Option.some.injEq, Prod.mk.injEq] at h
        obtain ⟨hpre, hpost⟩ := h
        have hpfx : sep <+: c :: rest := List.isPrefixOf_iff_prefix.mp hp
        obtain ⟨t, ht⟩ := hpfx
        subst hpre
        rw [← hpost, ← ht, List.nil_append, List.drop_left]
      · rw [if_neg hp] at h
        cases hfs : findSep sep rest with
        | none => rw [hfs] at h; exact absurd h (by simp)
        | some pr =>
            obtain ⟨p, q⟩ := pr
            rw [hfs] at h
            simp only [Option.some.injEq, Prod.mk.injEq] at h
            obtain ⟨hpre, hpost⟩ := h
            subst hpost
            rw [← hpre]
            have := ih p q hfs
            rw [List.cons_append, List.cons_append, ← this]

theorem findSep_some_occurs (sep : List Char) (s pre post : List Char)
    (h : findSep sep s = some (pre, post)) : sep <:+: s :=
  ⟨pre, post, (findSep_decomp sep s pre post h).symm⟩

theorem findSep_none_of_no_occurrence (sep : List Char) (s : List Char)
    (h : ¬ sep <:+: s) : findSep sep s = none := by
  cases hfs : findSep sep s with
  | none => rfl
  | some pr => exact absurd (findSep_some_occurs sep s pr.1 pr.2 (by rw [hfs])) h

theorem findSep_pre_none (sep : List Char) (s pre post : List Char)
    (h : findSep sep s = some (pre, post)) : findSep sep pre = none := by
  induction s generalizing pre post with
  | nil => simp [findSep] at h
  | cons c rest ih =>
      rw [findSep] at h
      by_cases hp : sep.isPrefixOf (c :: rest)
      · rw [if_pos hp] at h
        simp only [Option.some.injEq, Prod.mk.injEq] at h
        rw [← h.1]
        rfl
      · rw [if_neg hp] at h
        cases hfs : findSep sep rest with
        | none => rw [hfs] at h; exact absurd h (by simp)
        | some pr =>
            obtain ⟨p, q⟩ := pr
            rw [hfs] at h
            simp only [Option.some.injEq, Prod.mk.injEq] at h
            obtain ⟨hpre, hpost⟩ := h
            rw [← hpre, findSep]
            have hnp : ¬ sep.isPrefixOf (c :: p) := by
              intro hcp
              apply hp
              have h1 : sep <+: c :: p := List.isPrefixOf_iff_prefix.mp hcp
              have h2 : c :: p <+: c :: rest := by
                rw [findSep_decomp sep rest p q hfs]
                exact ⟨sep ++ q, by simp⟩
              exact List.isPrefixOf_iff_prefix.mpr (h1.trans h2)
            rw [if_neg hnp, ih p q hfs]

theorem findSep_some_shorter (sep : List Char) (s pre post : List Char)
    (hsep : sep ≠ []) (h : findSep sep s = some (pre, post)) :
    post.length < s.length := by
  have := findSep_decomp sep s pre post h
  subst this
  have : 0 < sep.length := List.length_pos.mpr hsep
  simp [List.length_append]
  omega

/-- Python `s.split(sep)` for a non-empty separator (an empty separator
raises `ValueError` in Python; it is mapped to `[s]` here and never used
with an empty separator). -/
def splitSep (sep : List Char) (s : List Char) : List (List Char) :=
  if hsep : sep = [] then [s]
  else
    match hfs : findSep sep s with
    | none => [s]
    | some (pre, post) => pre :: splitSep sep post
termination_by s.length
decreasing_by exact findSep_some_shorter sep s pre post hsep hfs

theorem splitSep_of_none (sep : List Char) (s : List Char)
    (h : findSep sep s = none) : splitSep sep s = [s] := by
  rw [splitSep]
  by_cases hsep : sep = []
  · rw [dif_pos hsep]
  · rw [dif_neg hsep]
    split
    · rfl
    · next pre post heq => rw [heq] at h; exact absurd h (by simp)

theorem splitSep_of_some (sep : List Char) (s pre post : List Char)
    (hsep : sep ≠ []) (h : findSep sep s = some (pre, post)) :
    splitSep sep s = pre :: splitSep sep post := by
  rw [splitSep, dif_neg hsep]
  split
  · next heq => rw [heq] at h; exact absurd h (by simp)
  · next p q heq =>
      rw [heq] at h
      simp only [Option.some.injEq, Prod.mk.injEq] at h
      rw [h.1, h.2]

/-- Python `s.split(sep)` on strings. -/
def pySplit (s sep : String) : List String :=
  (splitSep sep.toList s.toList).map String.mk

/-- The separator `";base64,"` as a character list. -/
def sepB64 : List Char := [';', 'b', 'a', 's', 'e', '6', '4', ',']

/-- Lines 126-130 of the source: `img_data.split(";base64,")[1]` guarded
by `try`/`except IndexError: pass` — keep element 1 of the split when it
exists, otherwise leave the payload unchanged. -/
def stripB64Prefix (s : String) : String :=
  match splitSep sepB64 s.toList with
  | _ :: x :: _ => String.mk x
  | _ => s

/-! ### Python value operations used by the adapter -/

/-- Python `key in v` (dict key membership, list membership, substring). -/
def pyContains (v : JVal) (key : String) : Except PyErr Bool :=
  match v with
  | .obj fs => .ok (fs.any (fun kv => kv.1 == key))
  | .arr xs => .ok (xs.any (fun x => match x with | .str s => s == key | _ => false))
  | .str s => .ok (pyIn key s)
  | _ => .error (.other "TypeError: argument is not iterable")

/-- Python `v[key]` for a string key. -/
def pyGetItem (v : JVal) (key : String) : Except PyErr JVal :=
  match v with
  | .obj fs =>
      match fs.find? (fun kv => kv.1 == key) with
      | some kv => .ok kv.2
      | none => .error (.other ("KeyError: " ++ key))
  | _ => .error (.other "TypeError: object is not subscriptable")

/-- Python `v[0]`. -/
def pyIndex0 (v : JVal) : Except PyErr JVal :=
  match v with
  | .arr [] => .error (.other "IndexError: list index out of range")
  | .arr (x :: _) => .ok x
  | .str s =>
      match s.toList with
      | [] => .error (.other "IndexError: string index out of range")
      | c :: _ => .ok (.str (String.mk [c]))
  | .obj _ => .error (.other "KeyError: 0")
  | _ => .error (.other "TypeError: object is not subscriptable")

/-- Using a JSON value where a Python `str` method (`.split`) is called:
anything but a string raises `AttributeError`. -/
def pyStr : JVal → Except PyErr String
  | .str s => .ok s
  | _ => .error (.other "AttributeError: object has no attribute split")

mutual

/-- Python `str(v)` rendering of a decoded JSON value. -/
def jvalRepr : JVal → String
  | .null => "None"
  | .bool true => "True"
  | .bool false => "False"
  | .num n => toString n
  | .str s => "\x27" ++ s ++ "\x27"
  | .arr xs => "[" ++ jvalReprList xs ++ "]"
  | .obj fs => "\x7b" ++ jvalReprFields fs ++ "\x7d"

/-- Comma-separated rendering of JSON array elements. -/
def jvalReprList : List JVal → String
  | [] => ""
  | [x] => jvalRepr x
  | x :: xs => jvalRepr x ++ ", " ++ jvalReprList xs

/-- Comma-separated rendering of JSON object fields. -/
def jvalReprFields : List (String × JVal) → String
  | [] => ""
  | [(k, val)] => "\x27" ++ k ++ "\x27: " ++ jvalRepr val
  | (k, val) :: fs => "\x27" ++ k ++ "\x27: " ++ jvalRepr val ++ ", " ++ jvalReprFields fs

end

/-- The two `except` clauses of `non_stream_response` (lines 189-192):
`requests.exceptions.RequestException` becomes `"Error: Request failed: {e}"`,
any other exception becomes `"Error: {e}"`. -/
def pyErrToMsg : PyErr → String
  | .request m => "Error: Request failed: " ++ m
  | .other m => "Error: " ++ m

/-- `response.raise_for_status()`: raises an `HTTPError` (a
`RequestException`) exactly for 4xx/5xx status codes. -/
def raiseForStatus (r : HttpResponse) : Except PyErr Unit :=
  if 400 ≤ r.status ∧ r.status < 600 then
    .error (.request ("HTTPError: " ++ toString r.status))
  else .ok ()

/-! ### The adapter (`class Pipe`), with its outbound effects as oracles -/

/-- Request headers: a Python dict of strings, in insertion order. -/
abbrev Headers := List (String × String)

/-- Python `dict.update`: existing keys keep their position and take the
new value; novel keys are appended in update order. -/
def dictUpdate {α : Type} (d u : List (String × α)) : List (String × α) :=
  d.map (fun kv =>
    match u.find? (fun kv2 => kv2.1 == kv.1) with
    | some kv2 => (kv.1, kv2.2)
    | none => kv)
  ++ u.filter (fun kv2 => !(d.any (fun kv => kv.1 == kv2.1)))

/-- Oracle for `requests.post(url, headers=..., json=payload, ...)`:
either an HTTP response or a raised exception. -/
abbrev NetOracle := String → Headers → JVal → Except PyErr HttpResponse

/-- Oracle for `requests.get(url, headers=...)` inside `url_to_img_data`;
the url argument is whatever JSON value `resp["output"][0]` held. -/
abbrev GetOracle := JVal → Headers → Except PyErr HttpResponse

/-- Modelled from the spec: the external `get_last_user_message`
collaborator of the host (`open_webui.utils.misc`), treated as "an
external collaborator providing a single string" from the message
sequence; it is not code of this repository. -/
abbrev GetLastUserMessage (M : Type) := M → String

/-- Oracle for Python `eval(f"{{{BEFORE_INPUT_STRING}}}")` (line 235):
dynamic evaluation of operator-supplied configuration text, yielding a
dict (modelled as a field list) or raising (e.g. `SyntaxError`). -/
abbrev EvalOracle := String → Except PyErr (List (String × JVal))

/-- `Pipe.url_to_img_data` (lines 63-79). -/
def url_to_img_data (get : GetOracle) (v : Valves) (url : JVal) : Except PyErr String := do
  let headers : Headers := [("Authorization", "Bearer " ++ v.FLUX_SCHNELL_API_KEY)]
  let response ← get url headers
  raiseForStatus response
  let content_type := response.contentTypeHeader.getD "application/octet-stream"
  pure ("data:" ++ content_type ++ ";base64," ++ String.mk (b64encodeBytes response.content))

/-- `Pipe.get_img_extension` (lines 87-105). -/
def get_img_extension (img_data : String) : Option String :=
  if pyStartswith img_data "/9j/" then some "jpeg"
  else if pyStartswith img_data "iVBOR" then some "png"
  else if pyStartswith img_data "R0lG" then some "gif"
  else if pyStartswith img_data "UklGR" then some "webp"
  else none

/-- `Pipe.handle_json_response` (lines 107-138).  Note line 124 of the
source returns a plain (non-f-string) literal, so the text `{resp}`
appears verbatim in that error message. -/
def handle_json_response (get : GetOracle) (v : Valves) (r : HttpResponse) :
    Except PyErr String := do
  let resp ← r.jsonVal
  let hasOutput ← pyContains resp "output"
  let imgDataOpt ←
    if hasOutput then do
      let out ← pyGetItem resp "output"
      let first ← pyIndex0 out
      let d ← url_to_img_data get v first
      pure (some d)
    else do
      let hasData ← pyContains resp "data"
      let cond ←
        if hasData then do
          let dta ← pyGetItem resp "data"
          let first ← pyIndex0 dta
          pyContains first "b64_json"
        else pure false
      if cond then do
        let dta ← pyGetItem resp "data"
        let first ← pyIndex0 dta
        let b ← pyGetItem first "b64_json"
        let s ← pyStr b
        pure (some s)
      else pure none
  match imgDataOpt with
  | none => pure "Error: Unexpected response format for the image provider! {resp}"
  | some imgData0 =>
      let imgData1 := stripB64Prefix imgData0
      match get_img_extension (strTake imgData1 9) with
      | none =>
          pure ("Error: Unsupported image format! \n\n " ++ jvalRepr resp
            ++ " \n\n " ++ imgData1)
      | some ext =>
          pure ("![Image](data:image/" ++ ext ++ ";base64," ++ imgData1
            ++ ")\n`GeneratedImage." ++ ext ++ "`")

/-- `Pipe.handle_image_response` (lines 140-156).  `content_type.split("/")`
is never empty, so the `[-1]` access is total; it is rendered with a
default that is never reached. -/
def handle_image_response (r : HttpResponse) : String :=
  let content_type := r.contentTypeHeader.getD ""
  let img_ext :=
    if pyIn "image/" content_type then (pySplit content_type "/").getLastD ""
    else "png"
  let image_base64 := String.mk (b64encodeBytes r.content)
  "![Image](data:" ++ content_type ++ ";base64," ++ image_base64
    ++ ")\n`GeneratedImage." ++ img_ext ++ "`"

/-- The `try` body of `Pipe.non_stream_response` (lines 171-187). -/
def non_stream_attempt (get : GetOracle) (net : NetOracle) (v : Valves)
    (headers : Headers) (payload : JVal) : Except PyErr String := do
  let response ← net v.FLUX_SCHNELL_API_BASE_URL headers payload
  raiseForStatus response
  let content_type := response.contentTypeHeader.getD ""
  if pyIn "application/json" content_type then
    handle_json_response get v response
  else if pyIn "image/" content_type then
    pure (handle_image_response response)
  else
    pure ("Error: Unsupported content type " ++ content_type)

/-- `Pipe.non_stream_response` (lines 158-192): the `try` body with every
raised exception converted to an error string by the `except` clauses. -/
def non_stream_response (get : GetOracle) (net : NetOracle) (v : Valves)
    (headers : Headers) (payload : JVal) : String :=
  match non_stream_attempt get net v headers payload with
  | .ok s => s
  | .error e => pyErrToMsg e

/-- `Pipe.stream_response` (lines 81-85): a generator yielding exactly the
non-streaming response. -/
def stream_response (get : GetOracle) (net : NetOracle) (v : Valves)
    (headers : Headers) (payload : JVal) : List String :=
  [non_stream_response get net v headers payload]

/-- The ordered keys of `headers_map`/`payload_map` (lines 223-267); the
selection loop iterates `payload_map` in this insertion order. -/
def providerKeys : List String :=
  ["huggingface.co", "replicate.com", "together.xyz", "hyperbolic.xyz"]

/-- `headers_map` (lines 223-228). -/
def headers_map (key : String) : Headers :=
  if key == "huggingface.co" then [("x-wait-for-model", "true")]
  else if key == "replicate.com" then [("Prefer", "wait")]
  else []

/-- `payload_map` (lines 230-267), with the result of the `eval` of
`BEFORE_INPUT_STRING` passed in (it is spliced into the Replicate body
under Python `{**evaluated, "input": {...}}` semantics). -/
def payload_map (beforeInput : List (String × JVal)) (prompt : String) (key : String) : JVal :=
  if key == "huggingface.co" then .obj [("inputs", .str prompt)]
  else if key == "replicate.com" then
    .obj (dictUpdate beforeInput
      [("input", .obj [("prompt", .str prompt), ("go_fast", .bool true),
        ("num_outputs", .num 1), ("aspect_ratio", .str "1:1"),
        ("output_format", .str "webp"), ("output_quality", .num 90)])])
  else if key == "together.xyz" then
    .obj [("model", .str "black-forest-labs/FLUX.1-schnell-Free"),
      ("prompt", .str prompt), ("width", .num 1024), ("height", .num 1024),
      ("steps", .num 4), ("n", .num 1), ("response_format", .str "b64_json")]
  else
    .obj [("model_name", .str "FLUX.1-dev"), ("prompt", .str prompt),
      ("steps", .num 25), ("cfg_scale", .num 5), ("enable_refiner", .bool false),
      ("height", .num 1024), ("width", .num 1024), ("backend", .str "auto")]

/-- The provider-selection loop of `Pipe.pipe` (lines 269-274): the first
key in table order that occurs as a substring of the configured base URL. -/
def selectKey (url : String) : Option String :=
  providerKeys.find? (fun key => pyIn key url)

/-- Line 277 of the source. -/
def unsupportedUrlMsg : String :=
  "Error: Unsupported API base URL! Remember, that\x27s the beauty of open-source: you can add your own..."

/-- `Pipe.pipe` (lines 203-287).  The returned pair is (what the call
yields — a value or an uncaught exception, since lines 215-277 run outside
the `try` at line 279 — , the conversation dict after the `body["stream"] =
False` mutation of line 220). -/
def pipe {M : Type} (glum : GetLastUserMessage M) (evalObj : EvalOracle)
    (get : GetOracle) (net : NetOracle) (v : Valves) (body : Body M) :
    Except PyErr PipeRet × Body M :=
  let headers : Headers :=
    [("Authorization", "Bearer " ++ v.FLUX_SCHNELL_API_KEY),
     ("Content-Type", "application/json")]
  let body := { body with streamEntry := some false }
  match body.messages with
  | none => (.error (.other "KeyError: messages"), body)
  | some msgs =>
      let prompt := glum msgs
      match evalObj v.BEFORE_INPUT_STRING with
      | .error e => (.error e, body)
      | .ok beforeInput =>
          match selectKey v.FLUX_SCHNELL_API_BASE_URL with
          | none => (.ok (.str unsupportedUrlMsg), body)
          | some key =>
              let headers := dictUpdate headers (headers_map key)
              let payload := payload_map beforeInput prompt key
              if body.streamEntry.getD false then
                (.ok (.gen (stream_response get net v headers payload)), body)
              else
                (.ok (.str (non_stream_response get net v headers payload)), body)

/-- A JSON response with the given decoded value. -/
def mkJsonResp (j : JVal) : HttpResponse :=
  { status := 200, contentTypeHeader := some "application/json",
    jsonVal := .ok j, content := [] }

/-- A raw-image response with the given `Content-Type` header and bytes
(`.json()` on it would raise a decode error). -/
def mkImageResp (ct : Option String) (content : List Nat) : HttpResponse :=
  { status := 200, contentTypeHeader := ct,
    jsonVal := .error (.other "JSONDecodeError"), content := content }

/-! ### Helper lemmas -/

theorem b64_no_semi (bs : List Nat) (h : ∀ b ∈ bs, b < 256) :
    ';' ∉ b64encodeBytes bs := by
  induction bs using b64encodeBytes.induct with
  | case1 => simp [b64encodeBytes]
  | case2 a =>
      have ha : a < 256 := h a (by simp)
      simp only [b64encodeBytes, List.mem_cons, not_or]
      exact ⟨Ne.symm (sixbitChar_ne_semi _ (by omega)),
        Ne.symm (sixbitChar_ne_semi _ (by omega)), by decide⟩
  | case3 a b =>
      have ha : a < 256 := h a (by simp)
      have hb : b < 256 := h b (by simp)
      simp only [b64encodeBytes, List.mem_cons, not_or]
      exact ⟨Ne.symm (sixbitChar_ne_semi _ (by omega)),
        Ne.symm (sixbitChar_ne_semi _ (by omega)),
        Ne.symm (sixbitChar_ne_semi _ (by omega)), by decide⟩
  | case4 a b c rest ih =>
      have ha : a < 256 := h a (by simp)
      have hb : b < 256 := h b (by simp)
      have hc : c < 256 := h c (by simp)
      have hrest := ih (fun x hx => h x (by simp [hx]))
      simp only [b64encodeBytes, List.mem_cons, not_or]
      exact ⟨Ne.symm (sixbitChar_ne_semi _ (by omega)),
        Ne.symm (sixbitChar_ne_semi _ (by omega)),
        Ne.symm (sixbitChar_ne_semi _ (by omega)),
        Ne.symm (sixbitChar_ne_semi _ (by omega)), hrest⟩

theorem pyIn_append_right (n a b : String) (h : pyIn n a = true) :
    pyIn n (a ++ b) = true := by
  unfold pyIn at *
  have hi : n.toList <:+: a.toList := of_decide_eq_true h
  apply decide_eq_true
  obtain ⟨s, t, hst⟩ := hi
  refine ⟨s, t ++ b.toList, ?_⟩
  have : (a ++ b).toList = a.toList ++ b.toList := String.data_append a b
  rw [this, ← hst]
  simp

theorem stripB64Prefix_of_no_sep (s : String) (h : findSep sepB64 s.toList = none) :
    stripB64Prefix s = s := by
  unfold stripB64Prefix
  rw [splitSep_of_none _ _ h]

/-! ### Concrete fixtures used by witnesses and counterexamples -/

/-- A message-sequence oracle returning a fixed prompt. -/
def cGlum : GetLastUserMessage Unit := fun _ => "a cat"

/-- An `eval` oracle that succeeds with a version dict. -/
def cEval : EvalOracle := fun _ => .ok [("version", JVal.str "abc")]

/-- A GET oracle that raises. -/
def cGet : GetOracle := fun _ _ => .error (.other "no fetch")

/-- A POST oracle raising a `RequestException` ("connection down"). -/
def cNetDown : NetOracle := fun _ _ _ => .error (.request "down")

/-- A configuration whose base URL matches the `together.xyz` profile. -/
def cValves : Valves :=
  ⟨"KEY", "https://api.together.xyz/v1/images/generations", "ver"⟩

/-! ### Claims -/

/-- C7: the claim says the "unexpected response format" branch returns an
error string that includes the raw decoded JSON.  Line 124 of the source
is a plain (non-f-string) literal, so the returned text is the fixed
string ending in the verbatim placeholder `{resp}` and does not contain
the decoded JSON: on the response `{"status": "ok"}` the rendered JSON
never occurs in the output.  The parallel branch at line 134 is an
f-string, and the docstring promises the formatted data, so this is a
slip in the code rather than in the specification. -/
theorem C7_unexpected_format_literal :
    handle_json_response cGet cValves (mkJsonResp (JVal.obj [("status", JVal.str "ok")]))
      = .ok "Error: Unexpected response format for the image provider! {resp}"
    ∧ pyIn "\x7bresp\x7d"
        "Error: Unexpected response format for the image provider! {resp}" = true
    ∧ pyIn (jvalRepr (JVal.obj [("status", JVal.str "ok")]))
        "Error: Unexpected response format for the image provider! {resp}" = false :=
  ⟨rfl, by decide, by decide⟩

/-- C10: the `img_data.split(";base64,")[1]` step (guarded by `except
IndexError: pass`) keeps exactly the text between the first and the second
occurrence of `";base64,"`:  with no occurrence the payload is unchanged;
with exactly one occurrence everything after it is kept; with two or more
occurrences everything from the second occurrence onward is dropped.
Occurrences are phrased through `findSep`, which decomposes a list at the
leftmost occurrence of the separator (witnessed by the returned
decomposition equations). -/
theorem C10_strip_keeps_between_first_and_second (s : String) :
    (findSep sepB64 s.toList = none → stripB64Prefix s = s)
    ∧ (∀ p q, findSep sepB64 s.toList = some (p, q) →
        s.toList = p ++ sepB64 ++ q ∧ findSep sepB64 p = none
        ∧ (findSep sepB64 q = none → stripB64Prefix s = String.mk q)
        ∧ (∀ p2 q2, findSep sepB64 q = some (p2, q2) →
            q = p2 ++ sepB64 ++ q2 ∧ stripB64Prefix s = String.mk p2)) := by
  constructor
  · exact stripB64Prefix_of_no_sep s
  · intro p q h
    refine ⟨findSep_decomp _ _ _ _ h, findSep_pre_none _ _ _ _ h, ?_, ?_⟩
    · intro hq
      unfold stripB64Prefix
      rw [splitSep_of_some _ _ _ _ (by decide) h, splitSep_of_none _ _ hq]
    · intro p2 q2 h2
      refine ⟨findSep_decomp _ _ _ _ h2, ?_⟩
      unfold stripB64Prefix
      rw [splitSep_of_some _ _ _ _ (by decide) h,
        splitSep_of_some _ _ _ _ (by decide) h2]

theorem C10_witness :
    stripB64Prefix "a;base64,b;base64,c" = String.mk "b".toList ∧
    stripB64Prefix "x;base64,tail" = String.mk "tail".toList ∧
    stripB64Prefix "plain" = "plain" :=
  ⟨(((C10_strip_keeps_between_first_and_second "a;base64,b;base64,c").2
      "a".toList "b;base64,c".toList (by decide)).2.2.2
      "b".toList "c".toList (by decide)).2,
   (((C10_strip_keeps_between_first_and_second "x;base64,tail").2
      "x".toList "tail".toList (by decide)).2.2.1 (by decide)),
   (C10_strip_keeps_between_first_and_second "plain").1 (by decide)⟩

/-- C9: on a decoded JSON object whose `output` (or `data`) field is the
empty array, the `[0]` access raises `IndexError` inside
`handle_json_response`; the generic `except Exception` handler of
`non_stream_response` absorbs it, so the call returns the generic
`"Error: <exception>"` string and not the "Unexpected response format"
message. -/
theorem C9_empty_array_indexerror (get : GetOracle) (net : NetOracle)
    (v : Valves) (rest : List (String × JVal)) (headers : Headers) (payload : JVal)
    (hnet : net v.FLUX_SCHNELL_API_BASE_URL headers payload
      = .ok (mkJsonResp (JVal.obj (("output", JVal.arr []) :: rest)))) :
    handle_json_response get v (mkJsonResp (JVal.obj (("output", JVal.arr []) :: rest)))
      = .error (.other "IndexError: list index out of range")
    ∧ handle_json_response get v (mkJsonResp (JVal.obj [("data", JVal.arr [])]))
      = .error (.other "IndexError: list index out of range")
    ∧ non_stream_response get net v headers payload
      = "Error: IndexError: list index out of range"
    ∧ pyIn "Unexpected response format" "Error: IndexError: list index out of range"
      = false := by
  refine ⟨rfl, rfl, ?_, by decide⟩
  unfold non_stream_response non_stream_attempt
  rw [hnet]
  rfl

theorem C9_witness :
    non_stream_response cGet
      (fun _ _ _ => .ok (mkJsonResp (JVal.obj [("output", JVal.arr [])])))
      cValves [] JVal.null
      = "Error: IndexError: list index out of range" :=
  (C9_empty_array_indexerror cGet
    (fun _ _ _ => .ok (mkJsonResp (JVal.obj [("output", JVal.arr [])])))
    cValves [] [] JVal.null rfl).2.2.1

/-- C8: `pipe` sets `body["stream"] = False` (line 220) before line 280
consults it, so the final conversation dict always carries
`stream := false` and any value `pipe` returns normally is a plain string,
never a generator, whatever streaming preference the caller passed in. -/
theorem C8_stream_forced_false {M : Type} (glum : GetLastUserMessage M)
    (evalObj : EvalOracle) (get : GetOracle) (net : NetOracle) (v : Valves)
    (body : Body M) :
    ((pipe glum evalObj get net v body).2).streamEntry = some false
    ∧ (∀ r, (pipe glum evalObj get net v body).1 = .ok r → r.isStr = true) := by
  obtain ⟨se, msgs⟩ := body
  unfold pipe
  cases msgs with
  | none => exact ⟨rfl, fun r h => by simp at h⟩
  | some m =>
      cases hev : evalObj v.BEFORE_INPUT_STRING with
      | error e => exact ⟨rfl, fun r h => by simp at h⟩
      | ok d =>
          cases hsel : selectKey v.FLUX_SCHNELL_API_BASE_URL with
          | none =>
              exact ⟨rfl, fun r h => by
                simp at h
                subst h
                rfl⟩
          | some key =>
              exact ⟨rfl, fun r h => by
                simp at h
                subst h
                rfl⟩

theorem C8_witness :
    ((pipe cGlum cEval cGet cNetDown cValves
        (⟨some true, some ()⟩ : Body Unit)).2).streamEntry = some false
    ∧ PipeRet.isStr (PipeRet.str "Error: Request failed: down") = true :=
  ⟨(C8_stream_forced_false cGlum cEval cGet cNetDown cValves ⟨some true, some ()⟩).1,
   (C8_stream_forced_false cGlum cEval cGet cNetDown cValves ⟨some true, some ()⟩).2
     (PipeRet.str "Error: Request failed: down") rfl⟩

/-- C3 counterexample: the claim says that when the caller requests
streaming, `pipe` returns a lazy sequence.  On a conversation dict with
`stream = True` (and a matching base URL), `pipe` returns a plain string,
not a generator: line 220 overwrites the streaming preference before line
280 reads it, so the streaming branch is unreachable. -/
theorem C3_counterexample :
    (Body.streamEntry (⟨some true, some ()⟩ : Body Unit) = some true)
    ∧ isGenRet (pipe cGlum cEval cGet cNetDown cValves
        (⟨some true, some ()⟩ : Body Unit)).1 = false :=
  ⟨rfl, rfl⟩

/-- C3 (amended): the streaming helper `stream_response` does yield
exactly one element, equal to the non-streaming result for the same
arguments; but since `pipe` forces `stream` to `False`, a caller
requesting streaming receives that single non-streaming result string
directly rather than as a lazy sequence. -/
theorem C3_amended {M : Type} (glum : GetLastUserMessage M) (evalObj : EvalOracle)
    (get : GetOracle) (net : NetOracle) (v : Valves) (headers : Headers)
    (payload : JVal) (body : Body M) (m : M) (d : List (String × JVal)) (key : String)
    (hm : body.messages = some m) (he : evalObj v.BEFORE_INPUT_STRING = .ok d)
    (hk : selectKey v.FLUX_SCHNELL_API_BASE_URL = some key) :
    stream_response get net v headers payload
      = [non_stream_response get net v headers payload]
    ∧ (pipe glum evalObj get net v body).1
      = .ok (.str (non_stream_response get net v
          (dictUpdate [("Authorization", "Bearer " ++ v.FLUX_SCHNELL_API_KEY),
            ("Content-Type", "application/json")] (headers_map key))
          (payload_map d (glum m) key))) := by
  refine ⟨rfl, ?_⟩
  obtain ⟨se, msgs⟩ := body
  have hm2 : msgs = some m := hm
  subst hm2
  unfold pipe
  rw [he, hk]
  rfl

theorem C3_witness :
    (pipe cGlum cEval cGet cNetDown cValves (⟨some true, some ()⟩ : Body Unit)).1
      = .ok (.str (non_stream_response cGet cNetDown cValves
          (dictUpdate [("Authorization", "Bearer " ++ cValves.FLUX_SCHNELL_API_KEY),
            ("Content-Type", "application/json")] (headers_map "together.xyz"))
          (payload_map [("version", JVal.str "abc")] (cGlum ()) "together.xyz"))) :=
  (C3_amended cGlum cEval cGet cNetDown cValves [] JVal.null
    ⟨some true, some ()⟩ () [("version", JVal.str "abc")] "together.xyz"
    rfl rfl rfl).2

/-- C2 counterexample: the claim says nothing is ever thrown across the
adapter boundary, for every conversation payload and configuration.  On a
conversation dict without a `"messages"` entry, line 221
(`body["messages"]`) raises `KeyError` outside the `try` of line 279, so
the exception escapes `pipe`. -/
theorem C2_counterexample :
    (pipe cGlum cEval cGet cNetDown cValves (⟨some false, none⟩ : Body Unit)).1
      = .error (.other "KeyError: messages") := rfl

/-- C2 (amended): provided the conversation dict has a `"messages"` entry
and the `eval` of `BEFORE_INPUT_STRING` (line 235, outside the `try`)
returns normally, `pipe` is total: it returns a plain string, and every
exception raised during the HTTP call and response handling — a
`RequestException` (connection error, timeout, non-2xx via
`raise_for_status`) or any other exception — is caught and converted to an
error string by `non_stream_response`. -/
theorem C2_amended {M : Type} (glum : GetLastUserMessage M) (evalObj : EvalOracle)
    (get : GetOracle) (net : NetOracle) (v : Valves) (body : Body M) (m : M)
    (d : List (String × JVal))
    (hm : body.messages = some m) (he : evalObj v.BEFORE_INPUT_STRING = .ok d) :
    (∃ s, (pipe glum evalObj get net v body).1 = .ok (.str s))
    ∧ (∀ headers payload e, non_stream_attempt get net v headers payload = .error e →
        non_stream_response get net v headers payload = pyErrToMsg e)
    ∧ (∀ headers payload msg,
        net v.FLUX_SCHNELL_API_BASE_URL headers payload = .error (.request msg) →
        non_stream_response get net v headers payload = "Error: Request failed: " ++ msg)
    ∧ (∀ headers payload msg,
        net v.FLUX_SCHNELL_API_BASE_URL headers payload = .error (.other msg) →
        non_stream_response get net v headers payload = "Error: " ++ msg) := by
  refine ⟨?_, ?_, ?_, ?_⟩
  · obtain ⟨se, msgs⟩ := body
    have hm2 : msgs = some m := hm
    subst hm2
    unfold pipe
    rw [he]
    cases hsel : selectKey v.FLUX_SCHNELL_API_BASE_URL with
    | none => exact ⟨unsupportedUrlMsg, rfl⟩
    | some key => exact ⟨_, rfl⟩
  · intro headers payload e h
    unfold non_stream_response
    rw [h]
  · intro headers payload msg h
    unfold non_stream_response non_stream_attempt
    rw [h]
    rfl
  · intro headers payload msg h
    unfold non_stream_response non_stream_attempt
    rw [h]
    rfl

theorem C2_witness :
    non_stream_response cGet cNetDown cValves [] JVal.null
      = "Error: Request failed: " ++ "down" :=
  (C2_amended cGlum cEval cGet cNetDown cValves (⟨some false, some ()⟩ : Body Unit)
    () [("version", JVal.str "abc")] rfl rfl).2.2.1 [] JVal.null "down" rfl

theorem toList_9j : "/9j/".toList = ['/', '9', 'j', '/'] := rfl

theorem toList_iVBOR : "iVBOR".toList = ['i', 'V', 'B', 'O', 'R'] := rfl

theorem toList_R0lG : "R0lG".toList = ['R', '0', 'l', 'G'] := rfl

theorem toList_UklGR : "UklGR".toList = ['U', 'k', 'l', 'G', 'R'] := rfl

/-- C4: the sniffing step of the JSON normalizer applies
`get_img_extension` to the first nine characters of the (stripped)
payload: a payload starting with `/9j/` yields `jpeg`, `iVBOR` yields
`png`, `R0lG` yields `gif`, `UklGR` yields `webp`; on any other payload
the normalizer returns (does not raise) an error string containing
"Unsupported image format". -/
theorem C4_sniffing (p : String) (get : GetOracle) (v : Valves) :
    (pyStartswith p "/9j/" = true → get_img_extension (strTake p 9) = some "jpeg")
    ∧ (pyStartswith p "iVBOR" = true → get_img_extension (strTake p 9) = some "png")
    ∧ (pyStartswith p "R0lG" = true → get_img_extension (strTake p 9) = some "gif")
    ∧ (pyStartswith p "UklGR" = true → get_img_extension (strTake p 9) = some "webp")
    ∧ (findSep sepB64 p.toList = none → get_img_extension (strTake p 9) = none →
        handle_json_response get v (mkJsonResp (JVal.obj [("data",
            JVal.arr [JVal.obj [("b64_json", JVal.str p)]])]))
          = .ok ("Error: Unsupported image format! \n\n "
              ++ jvalRepr (JVal.obj [("data", JVal.arr [JVal.obj [("b64_json", JVal.str p)]])])
              ++ " \n\n " ++ p)
        ∧ pyIn "Unsupported image format"
            ("Error: Unsupported image format! \n\n "
              ++ jvalRepr (JVal.obj [("data", JVal.arr [JVal.obj [("b64_json", JVal.str p)]])])
              ++ " \n\n " ++ p) = true) := by
  refine ⟨?_, ?_, ?_, ?_, ?_⟩
  · intro h
    unfold pyStartswith at h
    rw [toList_9j] at h
    obtain ⟨t, ht⟩ := List.isPrefixOf_iff_prefix.mp h
    have hp : p = String.mk (['/', '9', 'j', '/'] ++ t) := String.ext ht.symm
    subst hp
    unfold get_img_extension pyStartswith strTake
    rw [toList_9j, toList_iVBOR, toList_R0lG, toList_UklGR]
    simp [String.toList]
  · intro h
    unfold pyStartswith at h
    rw [toList_iVBOR] at h
    obtain ⟨t, ht⟩ := List.isPrefixOf_iff_prefix.mp h
    have hp : p = String.mk (['i', 'V', 'B', 'O', 'R'] ++ t) := String.ext ht.symm
    subst hp
    unfold get_img_extension pyStartswith strTake
    rw [toList_9j, toList_iVBOR, toList_R0lG, toList_UklGR]
    simp [String.toList]
  · intro h
    unfold pyStartswith at h
    rw [toList_R0lG] at h
    obtain ⟨t, ht⟩ := List.isPrefixOf_iff_prefix.mp h
    have hp : p = String.mk (['R', '0', 'l', 'G'] ++ t) := String.ext ht.symm
    subst hp
    unfold get_img_extension pyStartswith strTake
    rw [toList_9j, toList_iVBOR, toList_R0lG, toList_UklGR]
    simp [String.toList]
  · intro h
    unfold pyStartswith at h
    rw [toList_UklGR] at h
    obtain ⟨t, ht⟩ := List.isPrefixOf_iff_prefix.mp h
    have hp : p = String.mk (['U', 'k', 'l', 'G', 'R'] ++ t) := String.ext ht.symm
    subst hp
    unfold get_img_extension pyStartswith strTake
    rw [toList_9j, toList_iVBOR, toList_R0lG, toList_UklGR]
    simp [String.toList]
  · intro hsep hext
    have hstrip := stripB64Prefix_of_no_sep p hsep
    constructor
    · have hred : handle_json_response get v (mkJsonResp (JVal.obj [("data",
          JVal.arr [JVal.obj [("b64_json", JVal.str p)]])]))
          = (match get_img_extension (strTake (stripB64Prefix p) 9) with
             | none => Except.ok ("Error: Unsupported image format! \n\n "
                 ++ jvalRepr (JVal.obj [("data", JVal.arr [JVal.obj [("b64_json", JVal.str p)]])])
                 ++ " \n\n " ++ stripB64Prefix p)
             | some ext => Except.ok ("![Image](data:image/" ++ ext ++ ";base64,"
                 ++ stripB64Prefix p ++ ")\n`GeneratedImage." ++ ext ++ "`")) := rfl
      rw [hred, hstrip, hext]
    · apply pyIn_append_right
      apply pyIn_append_right
      apply pyIn_append_right
      decide

theorem C4_witness :
    get_img_extension (strTake "/9j/XYZ" 9) = some "jpeg"
    ∧ handle_json_response cGet cValves (mkJsonResp (JVal.obj [("data",
        JVal.arr [JVal.obj [("b64_json", JVal.str "hello")]])]))
      = .ok ("Error: Unsupported image format! \n\n "
          ++ jvalRepr (JVal.obj [("data", JVal.arr [JVal.obj [("b64_json", JVal.str "hello")]])])
          ++ " \n\n " ++ "hello") :=
  ⟨(C4_sniffing "/9j/XYZ" cGet cValves).1 (by decide),
   ((C4_sniffing "hello" cGet cValves).2.2.2.2 (by decide) (by decide)).1⟩

/-- C1: provider selection is first-match in table order over the four URL
substrings; the selected profile contributes exactly its header set merged
into the standard bearer-token/JSON headers and exactly its request-body
shape built from the extracted prompt; with no match, `pipe` returns the
"Unsupported API base URL" error string without consulting the network
oracles (the result is the same fixed string for every `net`/`get`). -/
theorem C1_provider_selection {M : Type} (glum : GetLastUserMessage M)
    (evalObj : EvalOracle) (get : GetOracle) (net : NetOracle) (v : Valves)
    (body : Body M) (m : M) (d : List (String × JVal))
    (hm : body.messages = some m) (he : evalObj v.BEFORE_INPUT_STRING = .ok d) :
    (pyIn "huggingface.co" v.FLUX_SCHNELL_API_BASE_URL = true →
      (pipe glum evalObj get net v body).1 = .ok (.str (non_stream_response get net v
        [("Authorization", "Bearer " ++ v.FLUX_SCHNELL_API_KEY),
         ("Content-Type", "application/json"), ("x-wait-for-model", "true")]
        (JVal.obj [("inputs", JVal.str (glum m))]))))
    ∧ (pyIn "huggingface.co" v.FLUX_SCHNELL_API_BASE_URL = false →
       pyIn "replicate.com" v.FLUX_SCHNELL_API_BASE_URL = true →
      (pipe glum evalObj get net v body).1 = .ok (.str (non_stream_response get net v
        [("Authorization", "Bearer " ++ v.FLUX_SCHNELL_API_KEY),
         ("Content-Type", "application/json"), ("Prefer", "wait")]
        (JVal.obj (dictUpdate d [("input", JVal.obj [("prompt", JVal.str (glum m)),
          ("go_fast", JVal.bool true), ("num_outputs", JVal.num 1),
          ("aspect_ratio", JVal.str "1:1"), ("output_format", JVal.str "webp"),
          ("output_quality", JVal.num 90)])])))))
    ∧ (pyIn "huggingface.co" v.FLUX_SCHNELL_API_BASE_URL = false →
       pyIn "replicate.com" v.FLUX_SCHNELL_API_BASE_URL = false →
       pyIn "together.xyz" v.FLUX_SCHNELL_API_BASE_URL = true →
      (pipe glum evalObj get net v body).1 = .ok (.str (non_stream_response get net v
        [("Authorization", "Bearer " ++ v.FLUX_SCHNELL_API_KEY),
         ("Content-Type", "application/json")]
        (JVal.obj [("model", JVal.str "black-forest-labs/FLUX.1-schnell-Free"),
          ("prompt", JVal.str (glum m)), ("width", JVal.num 1024),
          ("height", JVal.num 1024), ("steps", JVal.num 4), ("n", JVal.num 1),
          ("response_format", JVal.str "b64_json")]))))
    ∧ (pyIn "huggingface.co" v.FLUX_SCHNELL_API_BASE_URL = false →
       pyIn "replicate.com" v.FLUX_SCHNELL_API_BASE_URL = false →
       pyIn "together.xyz" v.FLUX_SCHNELL_API_BASE_URL = false →
       pyIn "hyperbolic.xyz" v.FLUX_SCHNELL_API_BASE_URL = true →
      (pipe glum evalObj get net v body).1 = .ok (.str (non_stream_response get net v
        [("Authorization", "Bearer " ++ v.FLUX_SCHNELL_API_KEY),
         ("Content-Type", "application/json")]
        (JVal.obj [("model_name", JVal.str "FLUX.1-dev"),
          ("prompt", JVal.str (glum m)), ("steps", JVal.num 25),
          ("cfg_scale", JVal.num 5), ("enable_refiner", JVal.bool false),
          ("height", JVal.num 1024), ("width", JVal.num 1024),
          ("backend", JVal.str "auto")]))))
    ∧ (pyIn "huggingface.co" v.FLUX_SCHNELL_API_BASE_URL = false →
       pyIn "replicate.com" v.FLUX_SCHNELL_API_BASE_URL = false →
       pyIn "together.xyz" v.FLUX_SCHNELL_API_BASE_URL = false →
       pyIn "hyperbolic.xyz" v.FLUX_SCHNELL_API_BASE_URL = false →
      (pipe glum evalObj get net v body).1 = .ok (.str unsupportedUrlMsg)
      ∧ pyIn "Unsupported API base URL" unsupportedUrlMsg = true) := by
  obtain ⟨se, msgs⟩ := body
  have hm2 : msgs = some m := hm
  subst hm2
  refine ⟨?_, ?_, ?_, ?_, ?_⟩
  · intro h1
    have hsel : selectKey v.FLUX_SCHNELL_API_BASE_URL = some "huggingface.co" := by
      unfold selectKey providerKeys
      simp only [List.find?, h1]
    unfold pipe
    rw [he, hsel]
    rfl
  · intro h1 h2
    have hsel : selectKey v.FLUX_SCHNELL_API_BASE_URL = some "replicate.com" := by
      unfold selectKey providerKeys
      simp only [List.find?, h1, h2]
    unfold pipe
    rw [he, hsel]
    rfl
  · intro h1 h2 h3
    have hsel : selectKey v.FLUX_SCHNELL_API_BASE_URL = some "together.xyz" := by
      unfold selectKey providerKeys
      simp only [List.find?, h1, h2, h3]
    unfold pipe
    rw [he, hsel]
    rfl
  · intro h1 h2 h3 h4
    have hsel : selectKey v.FLUX_SCHNELL_API_BASE_URL = some "hyperbolic.xyz" := by
      unfold selectKey providerKeys
      simp only [List.find?, h1, h2, h3, h4]
    unfold pipe
    rw [he, hsel]
    rfl
  · intro h1 h2 h3 h4
    have hsel : selectKey v.FLUX_SCHNELL_API_BASE_URL = none := by
      unfold selectKey providerKeys
      simp only [List.find?, h1, h2, h3, h4]
    unfold pipe
    rw [he, hsel]
    exact ⟨rfl, by decide⟩

theorem C1_witness :
    (pipe cGlum cEval cGet cNetDown cValves (⟨none, some ()⟩ : Body Unit)).1
      = .ok (.str (non_stream_response cGet cNetDown cValves
        [("Authorization", "Bearer " ++ cValves.FLUX_SCHNELL_API_KEY),
         ("Content-Type", "application/json")]
        (JVal.obj [("model", JVal.str "black-forest-labs/FLUX.1-schnell-Free"),
          ("prompt", JVal.str (cGlum ())), ("width", JVal.num 1024),
          ("height", JVal.num 1024), ("steps", JVal.num 4), ("n", JVal.num 1),
          ("response_format", JVal.str "b64_json")])))
    ∧ (pipe cGlum cEval cGet cNetDown
        ⟨"KEY", "https://example.com/v1", "ver"⟩ (⟨none, some ()⟩ : Body Unit)).1
      = .ok (.str unsupportedUrlMsg) :=
  ⟨(C1_provider_selection cGlum cEval cGet cNetDown cValves ⟨none, some ()⟩ ()
      [("version", JVal.str "abc")] rfl rfl).2.2.1 (by decide) (by decide) (by decide),
   ((C1_provider_selection cGlum cEval cGet cNetDown
      ⟨"KEY", "https://example.com/v1", "ver"⟩ ⟨none, some ()⟩ ()
      [("version", JVal.str "abc")] rfl rfl).2.2.2.2
      (by decide) (by decide) (by decide) (by decide)).1⟩

/-- The PNG magic bytes `\x89PNG\r\n\x1a\n`. -/
def pngMagic : List Nat := [137, 80, 78, 71, 13, 10, 26, 10]

/-- C6: on a JSON response `{"data": [{"b64_json": p}]}` where `p` is the
base64 of PNG magic bytes (followed by any further bytes), the normalizer
uses `p` itself as the payload, the result embeds
`data:image/png;base64,` and ends with `GeneratedImage.png`, and the GET
oracle is never consulted: the result is the same `get`-free string for
every `get`. -/
theorem C6_b64json_no_fetch (extra : List Nat) (hextra : ∀ b ∈ extra, b < 256)
    (get : GetOracle) (v : Valves) :
    handle_json_response get v (mkJsonResp (JVal.obj [("data",
        JVal.arr [JVal.obj [("b64_json",
          JVal.str (String.mk (b64encodeBytes (pngMagic ++ extra))))]])]))
      = .ok ("![Image](data:image/png;base64,"
          ++ String.mk (b64encodeBytes (pngMagic ++ extra))
          ++ ")\n`GeneratedImage.png`") := by
  have hbytes : ∀ b ∈ pngMagic ++ extra, b < 256 := by
    intro b hb
    rcases List.mem_append.mp hb with h | h
    · simp [pngMagic] at h
      rcases h with rfl | rfl | rfl | rfl | rfl | rfl | rfl | rfl <;> omega
    · exact hextra b h
  have hsemi : ';' ∉ b64encodeBytes (pngMagic ++ extra) := b64_no_semi _ hbytes
  have hinf : ¬ sepB64 <:+: (String.mk (b64encodeBytes (pngMagic ++ extra))).toList := by
    intro hi
    exact hsemi (hi.subset (by simp [sepB64]))
  have hsep : findSep sepB64 (String.mk (b64encodeBytes (pngMagic ++ extra))).toList = none :=
    findSep_none_of_no_occurrence _ _ hinf
  have hstrip := stripB64Prefix_of_no_sep _ hsep
  have hp : b64encodeBytes (pngMagic ++ extra)
      = 'i' :: 'V' :: 'B' :: 'O' :: 'R' :: 'w' :: '0' :: 'K'
        :: b64encodeBytes (26 :: 10 :: extra) := by
    show b64encodeBytes (137 :: 80 :: 78 :: 71 :: 13 :: 10 :: 26 :: 10 :: extra) = _
    rfl
  have hext : get_img_extension
      (strTake (String.mk (b64encodeBytes (pngMagic ++ extra))) 9) = some "png" := by
    unfold get_img_extension pyStartswith strTake
    rw [toList_9j, toList_iVBOR, toList_R0lG, toList_UklGR]
    rw [show (String.mk (b64encodeBytes (pngMagic ++ extra))).toList
      = 'i' :: 'V' :: 'B' :: 'O' :: 'R' :: 'w' :: '0' :: 'K'
        :: b64encodeBytes (26 :: 10 :: extra) from hp]
    simp [String.toList]
  have hred : handle_json_response get v (mkJsonResp (JVal.obj [("data",
      JVal.arr [JVal.obj [("b64_json",
        JVal.str (String.mk (b64encodeBytes (pngMagic ++ extra))))]])]))
      = (match get_img_extension
          (strTake (stripB64Prefix (String.mk (b64encodeBytes (pngMagic ++ extra)))) 9) with
         | none => Except.ok ("Error: Unsupported image format! \n\n "
             ++ jvalRepr (JVal.obj [("data", JVal.arr [JVal.obj [("b64_json",
                 JVal.str (String.mk (b64encodeBytes (pngMagic ++ extra))))]])])
             ++ " \n\n " ++ stripB64Prefix (String.mk (b64encodeBytes (pngMagic ++ extra))))
         | some ext => Except.ok ("![Image](data:image/" ++ ext ++ ";base64,"
             ++ stripB64Prefix (String.mk (b64encodeBytes (pngMagic ++ extra)))
             ++ ")\n`GeneratedImage." ++ ext ++ "`")) := rfl
  rw [hred, hstrip, hext]
  simp only [String.append_assoc]
  rfl

theorem C6_witness :
    handle_json_response cGet cValves (mkJsonResp (JVal.obj [("data",
        JVal.arr [JVal.obj [("b64_json",
          JVal.str (String.mk (b64encodeBytes (pngMagic ++ []))))]])]))
      = .ok ("![Image](data:image/png;base64,"
          ++ String.mk (b64encodeBytes (pngMagic ++ []))
          ++ ")\n`GeneratedImage.png`") :=
  C6_b64json_no_fetch [] (by simp) cGet cValves

/-- C5: the raw-image normalizer takes the filename extension from the
`image/<ext>` content-type header (the text after the last `/`), defaults
to `png` when the header is absent or does not contain `image/`, ends the
output with `GeneratedImage.<ext>` followed by the closing backtick, and
the base64 payload embedded in the returned data URI decodes back to
exactly the original response bytes. -/
theorem C5_raw_image_roundtrip (ct : String) (bytes : List Nat)
    (hb : ∀ b ∈ bytes, b < 256) :
    (pyIn "image/" ct = true → ∃ pre, handle_image_response (mkImageResp (some ct) bytes)
        = pre ++ ("GeneratedImage." ++ ((pySplit ct "/").getLastD "" ++ "`")))
    ∧ (∃ pre, handle_image_response (mkImageResp none bytes)
        = pre ++ "GeneratedImage.png`")
    ∧ (pyIn "image/" ct = false → ∃ pre, handle_image_response (mkImageResp (some ct) bytes)
        = pre ++ "GeneratedImage.png`")
    ∧ (∃ pre post, handle_image_response (mkImageResp (some ct) bytes)
        = pre ++ (";base64," ++ (String.mk (b64encodeBytes bytes) ++ (")" ++ post)))
        ∧ b64decodeChars (b64encodeBytes bytes) = bytes) := by
  refine ⟨?_, ?_, ?_, ?_⟩
  · intro h
    refine ⟨"![Image](data:" ++ ct ++ ";base64,"
      ++ String.mk (b64encodeBytes bytes) ++ ")\n\x60", ?_⟩
    simp only [handle_image_response, mkImageResp, Option.getD_some, h, if_true]
    simp only [String.append_assoc]
    rfl
  · refine ⟨"![Image](data:" ++ "" ++ ";base64,"
      ++ String.mk (b64encodeBytes bytes) ++ ")\n\x60", ?_⟩
    have h0 : pyIn "image/" "" = false := by decide
    simp only [handle_image_response, mkImageResp, Option.getD_none, h0, if_false,
      Bool.false_eq_true]
    simp only [String.append_assoc]
    rfl
  · intro h
    refine ⟨"![Image](data:" ++ ct ++ ";base64,"
      ++ String.mk (b64encodeBytes bytes) ++ ")\n\x60", ?_⟩
    simp only [handle_image_response, mkImageResp, Option.getD_some, h, if_false,
      Bool.false_eq_true]
    simp only [String.append_assoc]
    rfl
  · cases h : pyIn "image/" ct with
    | true =>
        refine ⟨"![Image](data:" ++ ct,
          "\n\x60GeneratedImage." ++ ((pySplit ct "/").getLastD "" ++ "\x60"), ?_,
          b64_roundtrip bytes hb⟩
        simp only [handle_image_response, mkImageResp, Option.getD_some, h, if_true]
        simp only [String.append_assoc]
        rfl
    | false =>
        refine ⟨"![Image](data:" ++ ct,
          "\n\x60GeneratedImage." ++ ("png" ++ "\x60"), ?_,
          b64_roundtrip bytes hb⟩
        simp only [handle_image_response, mkImageResp, Option.getD_some, h, if_false,
          Bool.false_eq_true]
        simp only [String.append_assoc]
        rfl

theorem C5_witness :
    (∃ pre, handle_image_response (mkImageResp (some "image/webp") [1, 2, 3])
        = pre ++ ("GeneratedImage."
            ++ ((pySplit "image/webp" "/").getLastD "" ++ "`")))
    ∧ b64decodeChars (b64encodeBytes [1, 2, 3]) = [1, 2, 3] :=
  ⟨(C5_raw_image_roundtrip "image/webp" [1, 2, 3] (by simp)).1 (by decide),
   ((C5_raw_image_roundtrip "image/webp" [1, 2, 3] (by simp)).2.2.2).choose_spec.choose_spec.2⟩
